import Mathlib

/-!
Shallow embedding of `src/main.py` (a Streamlit app forwarding an uploaded
image to two Hugging Face inference endpoints) and proofs about it.

Modelling conventions:
* Python floats that appear in the program (scores, the 0.20 threshold) are
  modelled as rationals; the literal `0.20` in the source and a JSON score
  `0.20` parse to the same double, so exact-rational comparison agrees with
  the float comparison the program performs on these values.
* `st.error`, `st.text`, `st.write`, `st.title`, `st.image`, `st.table` are
  modelled as messages appended to a display transcript.
* The HTTP layer (`requests.post`) is modelled by an oracle `HttpOutcome`:
  either a transport-level exception or a `Response` record.  A `Response`
  carries the status code, the declared `Content-Type` header value, the raw
  body text, and the result that `.json()` would produce on that body
  (`none` = the `ValueError` raised on unparsable JSON).
* PIL is an external library: an image is a record of its mode string,
  dimensions and pixel list; `Image.convert` changes the mode (pixel
  resampling is abstracted); the JPEG serializer `image.save(..., 'JPEG')`
  is a parameter `jsave` of the functions that use it, and decode failure of
  `Image.open` is recorded in the `Upload` record.
-/

set_option autoImplicit false

namespace ImageApp

/-- A byte string (request bodies, uploaded file contents). -/
abbrev Bytes := List Nat

/-- One label/score record of a classification response, as in the JSON
`[{"label": ..., "score": ...}, ...]` the endpoints return. -/
structure Entry where
  label : String
  score : ℚ
  deriving DecidableEq, Repr

/-- The JSON values the app distinguishes: a list of label/score records
(`isinstance(result, list)`), or the Hugging Face error object
(a truthy dict of scalars such as `{"error": "..."}`). -/
inductive PyJson where
  | list (entries : List Entry)
  | errorObj
  deriving DecidableEq, Repr

/-- An HTTP response as the app observes it.  `jsonParse` is what
`response.json()` returns on the body (`none` = `ValueError`). -/
structure Response where
  status : Nat
  contentType : String
  text : String
  jsonParse : Option PyJson
  deriving DecidableEq, Repr

/-- Oracle for one `requests.post` call: a transport-level exception
(`requests.exceptions.RequestException`, e.g. connection refused), or a
response. -/
inductive HttpOutcome where
  | transportErr (msg : String)
  | ok (r : Response)
  deriving DecidableEq, Repr

/-- Streamlit display calls, in order of emission. -/
inductive Msg where
  | title (s : String)
  | image
  | table
  | error (s : String)
  | text (s : String)
  | write (s : String)
  deriving DecidableEq, Repr

/-- One HTTP POST: url, value of the `Authorization` header, request body. -/
structure Request where
  url : String
  auth : String
  body : Bytes
  deriving DecidableEq, Repr

/-- Python exceptions that can escape the modelled code. -/
inductive PyExn where
  /-- `PIL.UnidentifiedImageError` from `Image.open` on undecodable bytes. -/
  | unidentifiedImage
  /-- `requests.exceptions.RequestException` escaping `query_age` (its
  `requests.post` call is outside the `try` block). -/
  | requestException (msg : String)
  /-- `TypeError` from indexing a string (iterating the error dict). -/
  | typeError
  deriving DecidableEq, Repr

/-- `HF_TOKEN = os.getenv("HUGGINGFACE_API_KEY")`: `none` when the variable
is absent. -/
abbrev Token := Option String

/-- Python string formatting of the token inside the f-string
`f"Bearer {HF_TOKEN}"`: `None` prints as `"None"`. -/
def tokenStr : Token → String
  | none => "None"
  | some s => s

/-- `headers = {"Authorization": f"Bearer {HF_TOKEN}"}`. -/
def authHeader (tok : Token) : String := "Bearer " ++ tokenStr tok

/-- Python truthiness of `HF_TOKEN` as used in `if not HF_TOKEN`:
`None` and the empty string are falsy. -/
def tokenTruthy : Token → Bool
  | none => false
  | some s => !(s == "")

/-- `API_URL_DETECTOR` from line 15 of the source. -/
def API_URL_DETECTOR : String :=
  "https://api-inference.huggingface.co/models/umm-maybe/AI-image-detector"

/-- The age-classifier URL inlined at line 25 of the source. -/
def API_URL_AGE : String :=
  "https://api-inference.huggingface.co/models/nateraw/vit-age-classifier"

/-- `response.raise_for_status()` raises `HTTPError` exactly for status
codes in `[400, 600)`. -/
def statusError (s : Nat) : Bool := 400 ≤ s && s < 600

/-- Whether the character list `pat` occurs at the head of `s`. -/
def matchesAt : List Char → List Char → Bool
  | _, [] => true
  | [], _ :: _ => false
  | a :: as, b :: bs => a == b && matchesAt as bs

/-- Whether the character list `pat` occurs somewhere inside `s`. -/
def containsSeq : List Char → List Char → Bool
  | [], pat => pat.isEmpty
  | s@(_ :: as), pat => matchesAt s pat || containsSeq as pat

/-- Python's substring test `pat in s` on strings. -/
def strContains (s pat : String) : Bool := containsSeq s.data pat.data

/-! ### PIL model -/

/-- A decoded PIL image: mode string (`"RGB"`, `"L"`, `"P"`, `"RGBA"`, ...),
dimensions, and pixel data (one entry per sample; resampling on mode
conversion is abstracted). -/
structure PILImage where
  mode : String
  width : Nat
  height : Nat
  pixels : List Nat
  deriving DecidableEq, Repr

/-- Number of bands (channels) of a PIL mode string, for the modes the app
can see. -/
def bands : String → Nat
  | "RGB" => 3
  | "RGBA" => 4
  | "CMYK" => 4
  | "LA" => 2
  | "L" => 1
  | "P" => 1
  | "1" => 1
  | _ => 0

/-- `image.convert(m)`: the result has mode `m` (pixel resampling
abstracted). -/
def convert (img : PILImage) (m : String) : PILImage := { img with mode := m }

/-- An `io.BytesIO` buffer: contents plus stream position. -/
structure BytesIO where
  data : Bytes
  pos : Nat
  deriving DecidableEq, Repr

/-- `io.BytesIO()`. -/
def BytesIO.new : BytesIO := ⟨[], 0⟩

/-- A write at the current end of the buffer (what `image.save` does to a
fresh buffer): appends and leaves the position at the end. -/
def BytesIO.write (b : BytesIO) (bs : Bytes) : BytesIO :=
  ⟨b.data ++ bs, b.data.length + bs.length⟩

/-- `buf.seek(n)`. -/
def BytesIO.seek (b : BytesIO) (n : Nat) : BytesIO := { b with pos := n }

/-- `buf.getvalue()`: the whole contents, independent of the position. -/
def BytesIO.getvalue (b : BytesIO) : Bytes := b.data

/-- Lines 19-22 of `query_age`, the image-encoding step
(`ImageEncoder.encode` of the spec): convert to `'RGB'`, serialize with the
JPEG encoder `jsave` (PIL's `image.save(buf, format='JPEG')`, abstracted as
a parameter), seek to the start.  -/
def encode (jsave : PILImage → Bytes) (img : PILImage) : BytesIO :=
  let image := convert img "RGB"
  let buf := BytesIO.new.write (jsave image)
  buf.seek 0

/-! ### The two query functions -/

/-- A Python call either returns a value or lets an exception escape. -/
inductive PyResult (α : Type) where
  | raise (e : PyExn)
  | ret (v : α)
  deriving DecidableEq, Repr

/-- Result of one query function: the requests it attempted, the messages it
displayed, and either a value returned normally or an escaped exception. -/
structure QueryEff where
  reqs : List Request
  msgs : List Msg
  result : PyResult (Option PyJson)
  deriving DecidableEq, Repr

/-- `query_detector(image_bytes)` (lines 41-62): POST the bytes to the
detector endpoint; on `HTTPError`, transport error, non-JSON content type or
unparsable JSON display a diagnostic and return `None`; otherwise return the
parsed JSON.  All of `requests.post`, `raise_for_status` and `.json()` are
inside the `try`. -/
def query_detector (tok : Token) (image_bytes : Bytes) (env : HttpOutcome) :
    QueryEff :=
  let req : Request := ⟨API_URL_DETECTOR, authHeader tok, image_bytes⟩
  match env with
  | .transportErr m =>
      ⟨[req], [Msg.error ("Request failed: " ++ m)], .ret none⟩
  | .ok r =>
      if statusError r.status then
        ⟨[req], [Msg.error ("HTTP error occurred: " ++ toString r.status)],
          .ret none⟩
      else if !(strContains r.contentType "application/json") then
        ⟨[req], [Msg.error "API did not return JSON. Raw response:",
                 Msg.text r.text], .ret none⟩
      else
        match r.jsonParse with
        | none =>
            ⟨[req], [Msg.error "Response is not valid JSON:",
                     Msg.text r.text], .ret none⟩
        | some j => ⟨[req], [], .ret (some j)⟩

/-- `query_age(image)` (lines 18-39): encode the image, POST to the age
endpoint, then handle the response.  `requests.post` is OUTSIDE the `try`
(lines 24-28 vs 30), so a transport exception escapes `query_age`
uncaught; `raise_for_status` (caught as `RequestException`) and `.json()`
(caught as `ValueError`) are inside it.  There is no content-type check. -/
def query_age (jsave : PILImage → Bytes) (tok : Token) (img : PILImage)
    (env : HttpOutcome) : QueryEff :=
  let body := (encode jsave img).getvalue
  let req : Request := ⟨API_URL_AGE, authHeader tok, body⟩
  match env with
  | .transportErr m => ⟨[req], [], .raise (PyExn.requestException m)⟩
  | .ok r =>
      if statusError r.status then
        ⟨[req],
          [Msg.error ("Error contacting Hugging Face: " ++ toString r.status)],
          .ret none⟩
      else
        match r.jsonParse with
        | none =>
            ⟨[req], [Msg.error "Error decoding JSON:", Msg.text r.text],
              .ret none⟩
        | some j => ⟨[req], [], .ret (some j)⟩

/-! ### Top-prediction reduction -/

/-- The fold underlying `df['score'].idxmax()`: pandas `idxmax` returns the
first index attaining the maximum, so the accumulator is replaced only on a
strictly greater score. -/
def topPredAux (best : Entry) : List Entry → Entry
  | [] => best
  | e :: es => topPredAux (if best.score < e.score then e else best) es

/-- `topPrediction` of the spec: `df.loc[df['score'].idxmax()]` on a
non-empty result (lines 90-92 and 122-124), the guarded empty case
(lines 121/125-126) mapping to `none`. -/
def topPrediction : List Entry → Option Entry
  | [] => none
  | e :: es => some (topPredAux e es)

/-- Lines 150-154 of `is_artificial_detector`: scan the result for an entry
labelled exactly `'artificial'` with score strictly above `0.20`; the loop
sets the flag and breaks at the first hit. -/
def is_artificial : List Entry → Bool
  | [] => false
  | item :: rest =>
      if item.label = "artificial" ∧ (1 / 5 : ℚ) < item.score then true
      else is_artificial rest

/-! ### The three feature functions -/

/-- One uploaded file: its raw bytes (`uploaded_file.read()`) and what
`Image.open` yields on it (`none` = `PIL.UnidentifiedImageError`). -/
structure Upload where
  raw : Bytes
  decoded : Option PILImage
  deriving DecidableEq, Repr

/-- Observable outcome of one feature function: requests attempted, display
transcript, and the exception that escaped it, if any. -/
structure FeatureEff where
  reqs : List Request
  msgs : List Msg
  exn : Option PyExn
  deriving DecidableEq, Repr

/-- `age_classification()` (lines 65-94).  With an upload: `Image.open`
(uncaught on failure), display, local token check (error message + early
return when falsy), `query_age`, then render: a list result with positive
length gets a table and the top label, everything else the retry message. -/
def age_classification (jsave : PILImage → Bytes) (tok : Token)
    (up : Option Upload) (env : HttpOutcome) : FeatureEff :=
  let t := [Msg.title "Age Classification"]
  match up with
  | none => ⟨[], t, none⟩
  | some u =>
      match u.decoded with
      | none => ⟨[], t, some PyExn.unidentifiedImage⟩
      | some img =>
          let t := t ++ [Msg.image]
          if !(tokenTruthy tok) then
            ⟨[], t ++ [Msg.error "Hugging Face API token not found! Please set HUGGINGFACE_API_KEY in your .env file."], none⟩
          else
            let q := query_age jsave tok img env
            match q.result with
            | .raise e => ⟨q.reqs, t ++ q.msgs, some e⟩
            | .ret result =>
                let t := t ++ q.msgs
                match result with
                | some (PyJson.list (e :: es)) =>
                    let top := topPredAux e es
                    ⟨q.reqs,
                      t ++ [Msg.table,
                        Msg.write ("The person in the image is likely in the age group: " ++ top.label)],
                      none⟩
                | _ =>
                    ⟨q.reqs,
                      t ++ [Msg.write "An error occurred while processing the image. Please try again."],
                      none⟩

/-- `ai_image_detector()` (lines 96-128).  With an upload: display, read raw
bytes, `query_detector`, then render: truthy list result gets a table and
the top label; falsy result (`None`, empty list) the failure message.  A
truthy non-list result reaches `pd.DataFrame(result)`, which raises on the
all-scalar error dict. -/
def ai_image_detector (tok : Token) (up : Option Upload) (env : HttpOutcome) :
    FeatureEff :=
  let t := [Msg.title "AI Image Detector"]
  match up with
  | none => ⟨[], t, none⟩
  | some u =>
      let t := t ++ [Msg.image]
      let q := query_detector tok u.raw env
      match q.result with
      | .raise e => ⟨q.reqs, t ++ q.msgs, some e⟩
      | .ret result =>
          let t := t ++ q.msgs
          match result with
          | some (PyJson.list (e :: es)) =>
              let top := topPredAux e es
              ⟨q.reqs,
                t ++ [Msg.table,
                  Msg.write ("The image is likely " ++ top.label)],
                none⟩
          | some PyJson.errorObj => ⟨q.reqs, t, some PyExn.typeError⟩
          | _ =>
              ⟨q.reqs,
                t ++ [Msg.write "Failed to get a valid response from the API."],
                none⟩

/-- `is_artificial_detector()` (lines 130-161).  With an upload: display,
read raw bytes, `query_detector`, then the threshold scan on a truthy list
result; falsy result gets the failure message.  A truthy non-list result
reaches `item['label']` on a dict key (a string), raising `TypeError`. -/
def is_artificial_detector (tok : Token) (up : Option Upload)
    (env : HttpOutcome) : FeatureEff :=
  let t := [Msg.title "Is Image Artificial?"]
  match up with
  | none => ⟨[], t, none⟩
  | some u =>
      let t := t ++ [Msg.image]
      let q := query_detector tok u.raw env
      match q.result with
      | .raise e => ⟨q.reqs, t ++ q.msgs, some e⟩
      | .ret result =>
          let t := t ++ q.msgs
          match result with
          | some (PyJson.list (e :: es)) =>
              let verdict :=
                if is_artificial (e :: es) then
                  "The image may be artificially generated."
                else "The image is likely human."
              ⟨q.reqs, t ++ [Msg.write verdict], none⟩
          | some PyJson.errorObj => ⟨q.reqs, t, some PyExn.typeError⟩
          | _ =>
              ⟨q.reqs,
                t ++ [Msg.write "Failed to get a valid response from the API."],
                none⟩

end ImageApp

namespace ImageApp

/-! ### Helper lemmas -/

/-- Characterization of the line 150-154 scan: positive iff some entry is
labelled exactly `"artificial"` with score strictly above `1/5`. -/
lemma is_artificial_iff (l : List Entry) :
    is_artificial l = true ↔
      ∃ e ∈ l, e.label = "artificial" ∧ (1 / 5 : ℚ) < e.score := by
  induction l with
  | nil => simp [is_artificial]
  | cons item rest ih =>
      simp only [is_artificial]
      split_ifs with h
      · constructor
        · intro _
          exact ⟨item, List.mem_cons_self item rest, h⟩
        · intro _
          rfl
      · rw [ih]
        constructor
        · rintro ⟨e, he, hp⟩
          exact ⟨e, List.mem_cons_of_mem _ he, hp⟩
        · rintro ⟨e, he, hp⟩
          rcases List.mem_cons.mp he with heq | he'
          · exact absurd (heq ▸ hp) h
          · exact ⟨e, he', hp⟩

/-- The accumulator's score never decreases along the `idxmax` fold. -/
lemma topPredAux_score_le (l : List Entry) :
    ∀ b : Entry, b.score ≤ (topPredAux b l).score := by
  induction l with
  | nil =>
      intro b
      simp [topPredAux]
  | cons e es ih =>
      intro b
      simp only [topPredAux]
      split_ifs with h
      · exact (le_of_lt h).trans (ih e)
      · exact ih b

/-- Decomposition around the `idxmax` fold's result: entries before it score
strictly lower, entries after it score no higher (so it is the first entry
attaining the maximum). -/
lemma topPredAux_decomp (l : List Entry) :
    ∀ b : Entry,
      ∃ l₁ l₂, b :: l = l₁ ++ topPredAux b l :: l₂ ∧
        (∀ x ∈ l₁, x.score < (topPredAux b l).score) ∧
        (∀ x ∈ l₂, x.score ≤ (topPredAux b l).score) := by
  induction l with
  | nil =>
      intro b
      exact ⟨[], [], rfl, by simp, by simp⟩
  | cons e es ih =>
      intro b
      simp only [topPredAux]
      split_ifs with h
      · obtain ⟨l₁, l₂, hd, h1, h2⟩ := ih e
        refine ⟨b :: l₁, l₂, ?_, ?_, h2⟩
        · rw [List.cons_append, ← hd]
        · intro x hx
          rcases List.mem_cons.mp hx with rfl | hx'
          · exact lt_of_lt_of_le h (topPredAux_score_le es e)
          · exact h1 x hx'
      · obtain ⟨l₁, l₂, hd, h1, h2⟩ := ih b
        cases l₁ with
        | nil =>
            simp only [List.nil_append] at hd
            injection hd with hb hes
            refine ⟨[], e :: l₂, ?_, by simp, ?_⟩
            · rw [List.nil_append, ← hb, ← hes]
            · intro x hx
              rcases List.mem_cons.mp hx with rfl | hx'
              · rw [← hb]
                exact le_of_not_lt h
              · exact h2 x hx'
        | cons a l₁' =>
            rw [List.cons_append] at hd
            injection hd with hba hes
            have hbr : b.score < (topPredAux b es).score :=
              hba.symm ▸ h1 a (List.mem_cons_self a l₁')
            refine ⟨b :: e :: l₁', l₂, ?_, ?_, h2⟩
            · rw [List.cons_append, List.cons_append]
              conv_lhs => rw [hes]
            · intro x hx
              rcases List.mem_cons.mp hx with rfl | hx'
              · exact hbr
              · rcases List.mem_cons.mp hx' with rfl | hx''
                · exact lt_of_le_of_lt (le_of_not_lt h) hbr
                · exact h1 x (List.mem_cons_of_mem _ hx'')

/-! ### C1 -/

/-- C1: the artificial-vs-human decision rule is positive iff some entry has
label `"artificial"` and score strictly greater than `0.20`, independently
of whether that entry holds the maximum score; in particular
`[("artificial", 0.25), ("human", 0.75)]` is positive and
`[("artificial", 0.15), ("human", 0.85)]` is negative. -/
theorem c1_artificial_threshold_rule :
    (∀ l : List Entry,
      is_artificial l = true ↔
        ∃ e ∈ l, e.label = "artificial" ∧ (1 / 5 : ℚ) < e.score) ∧
    is_artificial [⟨"artificial", 1/4⟩, ⟨"human", 3/4⟩] = true ∧
    is_artificial [⟨"artificial", 3/20⟩, ⟨"human", 17/20⟩] = false :=
  ⟨is_artificial_iff, by norm_num [is_artificial],
    by norm_num [is_artificial]; decide⟩

/-! ### C10 -/

/-- C10: the label match is exact, case-sensitive equality with
`"artificial"`: a result with no entry labelled exactly `"artificial"` is
negative regardless of scores, and an `"artificial"` entry with score
exactly `0.20` never triggers a positive verdict. -/
theorem c10_exact_label_strict_threshold :
    (∀ l : List Entry, (∀ e ∈ l, e.label ≠ "artificial") →
      is_artificial l = false) ∧
    (∀ l : List Entry, (∀ e ∈ l, e.label = "artificial" → e.score ≤ 1 / 5) →
      is_artificial l = false) ∧
    is_artificial [⟨"Artificial", 9/10⟩, ⟨"human", 1/10⟩] = false ∧
    is_artificial [⟨"artificial", 1/5⟩, ⟨"human", 4/5⟩] = false := by
  refine ⟨?_, ?_, by norm_num [is_artificial]; decide,
      by norm_num [is_artificial]; decide⟩
  · intro l h
    cases hb : is_artificial l with
    | false => rfl
    | true =>
        obtain ⟨e, he, hl, _⟩ := (is_artificial_iff l).mp hb
        exact absurd hl (h e he)
  · intro l h
    cases hb : is_artificial l with
    | false => rfl
    | true =>
        obtain ⟨e, he, hl, hs⟩ := (is_artificial_iff l).mp hb
        exact absurd hs (not_lt_of_le (h e he hl))

/-- Witness for C10 at concrete inputs. -/
theorem c10_exact_label_strict_threshold_witness :
    is_artificial [⟨"human", 99/100⟩] = false ∧
    is_artificial [⟨"artificial", 1/10⟩] = false :=
  ⟨c10_exact_label_strict_threshold.1 _ (by decide),
    c10_exact_label_strict_threshold.2.1 _ (by
      intro e he hl
      rw [List.mem_singleton] at he
      subst he
      norm_num)⟩

/-! ### C3 -/

/-- C3: `topPrediction` of a non-empty result is an entry of maximum score,
the first such entry in sequence order on ties; over
`[("human", 0.3), ("artificial", 0.7)]` it is `("artificial", 0.7)`. -/
theorem c3_topPrediction_first_max :
    (∀ (l : List Entry) (e : Entry), topPrediction l = some e →
      e ∈ l ∧ (∀ x ∈ l, x.score ≤ e.score) ∧
      ∃ l₁ l₂, l = l₁ ++ e :: l₂ ∧ (∀ x ∈ l₁, x.score < e.score) ∧
        (∀ x ∈ l₂, x.score ≤ e.score)) ∧
    (∀ l : List Entry, l ≠ [] → ∃ e, topPrediction l = some e) ∧
    topPrediction [⟨"human", 3/10⟩, ⟨"artificial", 7/10⟩] =
      some ⟨"artificial", 7/10⟩ := by
  refine ⟨?_, ?_, by norm_num [topPrediction, topPredAux]⟩
  · intro l e htop
    cases l with
    | nil => simp [topPrediction] at htop
    | cons a as =>
        simp only [topPrediction, Option.some.injEq] at htop
        subst htop
        obtain ⟨l₁, l₂, hd, h1, h2⟩ := topPredAux_decomp as a
        have hmem : topPredAux a as ∈ a :: as := by
          rw [hd]
          exact List.mem_append_right _ (List.mem_cons_self _ _)
        refine ⟨hmem, ?_, l₁, l₂, hd, h1, h2⟩
        intro x hx
        rw [hd] at hx
        rcases List.mem_append.mp hx with hx' | hx'
        · exact le_of_lt (h1 x hx')
        · rcases List.mem_cons.mp hx' with rfl | hx''
          · exact le_refl _
          · exact h2 x hx''
  · intro l hl
    cases l with
    | nil => exact absurd rfl hl
    | cons a as => exact ⟨topPredAux a as, rfl⟩

/-- Witness for C3 at a concrete non-empty input. -/
theorem c3_topPrediction_first_max_witness :
    ((⟨"artificial", 7/10⟩ : Entry) ∈
        ([⟨"human", 3/10⟩, ⟨"artificial", 7/10⟩] : List Entry) ∧
      (∀ x ∈ ([⟨"human", 3/10⟩, ⟨"artificial", 7/10⟩] : List Entry),
        x.score ≤ (⟨"artificial", 7/10⟩ : Entry).score) ∧
      ∃ l₁ l₂,
        ([⟨"human", 3/10⟩, ⟨"artificial", 7/10⟩] : List Entry) =
          l₁ ++ (⟨"artificial", 7/10⟩ : Entry) :: l₂ ∧
        (∀ x ∈ l₁, x.score < (⟨"artificial", 7/10⟩ : Entry).score) ∧
        (∀ x ∈ l₂, x.score ≤ (⟨"artificial", 7/10⟩ : Entry).score)) ∧
    ∃ e, topPrediction [⟨"human", 3/10⟩, ⟨"artificial", 7/10⟩] = some e :=
  ⟨c3_topPrediction_first_max.1 _ _ (by norm_num [topPrediction, topPredAux]),
    c3_topPrediction_first_max.2.1 _ (by simp)⟩

/-! ### Request-trace helper lemmas -/

/-- `query_age` always attempts exactly one POST of the re-encoded bytes to
the age endpoint. -/
lemma query_age_reqs (jsave : PILImage → Bytes) (tok : Token)
    (img : PILImage) (env : HttpOutcome) :
    (query_age jsave tok img env).reqs =
      [⟨API_URL_AGE, authHeader tok, (encode jsave img).getvalue⟩] := by
  cases env with
  | transportErr m => rfl
  | ok r =>
      simp only [query_age]
      split_ifs with h1
      · rfl
      · cases r.jsonParse <;> rfl

/-- `query_detector` always attempts exactly one POST of the given bytes to
the detector endpoint. -/
lemma query_detector_reqs (tok : Token) (b : Bytes) (env : HttpOutcome) :
    (query_detector tok b env).reqs = [⟨API_URL_DETECTOR, authHeader tok, b⟩] := by
  cases env with
  | transportErr m => rfl
  | ok r =>
      simp only [query_detector]
      split_ifs with h1 h2
      · rfl
      · rfl
      · cases r.jsonParse <;> rfl

/-- The detector feature with an upload issues exactly the one raw-bytes
request of `query_detector`, whatever the token and the response. -/
lemma ai_image_detector_reqs (tok : Token) (u : Upload) (env : HttpOutcome) :
    (ai_image_detector tok (some u) env).reqs =
      [⟨API_URL_DETECTOR, authHeader tok, u.raw⟩] := by
  have hq := query_detector_reqs tok u.raw env
  simp only [ai_image_detector]
  cases hr : (query_detector tok u.raw env).result with
  | raise e => simpa [hr] using hq
  | ret v =>
      cases v with
      | none => simpa [hr] using hq
      | some j =>
          cases j with
          | errorObj => simpa [hr] using hq
          | list es => cases es <;> simpa [hr] using hq

/-- Same for the artificial-verdict feature. -/
lemma is_artificial_detector_reqs (tok : Token) (u : Upload)
    (env : HttpOutcome) :
    (is_artificial_detector tok (some u) env).reqs =
      [⟨API_URL_DETECTOR, authHeader tok, u.raw⟩] := by
  have hq := query_detector_reqs tok u.raw env
  simp only [is_artificial_detector]
  cases hr : (query_detector tok u.raw env).result with
  | raise e => simpa [hr] using hq
  | ret v =>
      cases v with
      | none => simpa [hr] using hq
      | some j =>
          cases j with
          | errorObj => simpa [hr] using hq
          | list es => cases es <;> simpa [hr] using hq

/-- With a decoded upload and a truthy token, the age feature issues exactly
the one re-encoded-bytes request of `query_age`. -/
lemma age_classification_reqs (jsave : PILImage → Bytes) (tok : Token)
    (raw : Bytes) (img : PILImage) (env : HttpOutcome)
    (h : tokenTruthy tok = true) :
    (age_classification jsave tok (some ⟨raw, some img⟩) env).reqs =
      [⟨API_URL_AGE, authHeader tok, (encode jsave img).getvalue⟩] := by
  have hq := query_age_reqs jsave tok img env
  simp only [age_classification, h]
  cases hr : (query_age jsave tok img env).result with
  | raise e => simpa [hr] using hq
  | ret v =>
      cases v with
      | none => simpa [hr] using hq
      | some j =>
          cases j with
          | errorObj => simpa [hr] using hq
          | list es => cases es <;> simpa [hr] using hq

/-- With a decoded upload and a falsy token, the age feature stops at the
local check: a configuration error message, no request, normal return. -/
lemma age_classification_no_token (jsave : PILImage → Bytes) (tok : Token)
    (raw : Bytes) (img : PILImage) (env : HttpOutcome)
    (h : tokenTruthy tok = false) :
    age_classification jsave tok (some ⟨raw, some img⟩) env =
      ⟨[], [Msg.title "Age Classification", Msg.image,
        Msg.error "Hugging Face API token not found! Please set HUGGINGFACE_API_KEY in your .env file."],
        none⟩ := by
  simp [age_classification, h]

/-! ### C5 -/

/-- C5: for any decodable image of any mode, `encode` converts it to the
3-channel `"RGB"` mode, serializes it with the (fixed, JPEG) serializer, and
returns a buffer positioned at its start whose non-empty contents decode
back to a 3-channel image.  The JPEG codec is external (PIL): `jsave` and
`jload` stand for it, constrained exactly by its contract at this image
(non-empty output, decode inverts encode). -/
theorem c5_encode_rgb_jpeg_buffer :
    ∀ (jsave : PILImage → Bytes) (jload : Bytes → Option PILImage)
      (img : PILImage),
      jsave (convert img "RGB") ≠ [] →
      jload (jsave (convert img "RGB")) = some (convert img "RGB") →
      (encode jsave img).pos = 0 ∧
      (encode jsave img).getvalue ≠ [] ∧
      ∃ img', jload ((encode jsave img).getvalue) = some img' ∧
        img'.mode = "RGB" ∧ bands img'.mode = 3 := by
  intro jsave jload img hne hload
  refine ⟨rfl, ?_, convert img "RGB", ?_, rfl, rfl⟩
  · simpa [encode, BytesIO.new, BytesIO.write, BytesIO.seek,
      BytesIO.getvalue] using hne
  · simpa [encode, BytesIO.new, BytesIO.write, BytesIO.seek,
      BytesIO.getvalue] using hload

/-- Witness for C5 with a palette-mode image and a concrete codec pair. -/
theorem c5_encode_rgb_jpeg_buffer_witness :
    (encode (fun _ => [1]) ⟨"P", 1, 1, [0]⟩).pos = 0 ∧
    (encode (fun _ => [1]) ⟨"P", 1, 1, [0]⟩).getvalue ≠ [] ∧
    ∃ img',
      (fun _ : Bytes => some (⟨"RGB", 1, 1, [0]⟩ : PILImage))
          ((encode (fun _ => [1]) ⟨"P", 1, 1, [0]⟩).getvalue) = some img' ∧
      img'.mode = "RGB" ∧ bands img'.mode = 3 :=
  c5_encode_rgb_jpeg_buffer (fun _ => [1])
    (fun _ => some ⟨"RGB", 1, 1, [0]⟩) ⟨"P", 1, 1, [0]⟩
    (by simp) rfl

/-! ### C9 -/

/-- C9: `query_detector` never lets an exception escape: every HTTP-status,
transport, content-type or JSON-decoding failure returns `None` after a
diagnostic message, and a non-`None` value comes only from a parsed JSON
body with a JSON content type and a non-error status. -/
theorem c9_query_detector_never_raises :
    (∀ (tok : Token) (b : Bytes) (env : HttpOutcome),
      ∃ o, (query_detector tok b env).result = PyResult.ret o) ∧
    (∀ (tok : Token) (b : Bytes) (env : HttpOutcome) (j : PyJson),
      (query_detector tok b env).result = PyResult.ret (some j) →
      ∃ r, env = HttpOutcome.ok r ∧ statusError r.status = false ∧
        strContains r.contentType "application/json" = true ∧
        r.jsonParse = some j) ∧
    (∀ (tok : Token) (b : Bytes) (env : HttpOutcome),
      (query_detector tok b env).result = PyResult.ret none →
      (query_detector tok b env).msgs ≠ []) := by
  refine ⟨?_, ?_, ?_⟩
  · intro tok b env
    cases env with
    | transportErr m => exact ⟨none, rfl⟩
    | ok r =>
        simp only [query_detector]
        split_ifs with h1 h2
        · exact ⟨none, rfl⟩
        · exact ⟨none, rfl⟩
        · cases hj : r.jsonParse with
          | none => exact ⟨none, by simp [hj]⟩
          | some j => exact ⟨some j, by simp [hj]⟩
  · intro tok b env j h
    cases env with
    | transportErr m => simp [query_detector] at h
    | ok r =>
        simp only [query_detector] at h
        split_ifs at h with h1 h2
        · simp at h
        · simp at h
        · cases hj : r.jsonParse with
          | none => rw [hj] at h; simp at h
          | some j' =>
              rw [hj] at h
              simp only [PyResult.ret.injEq, Option.some.injEq] at h
              subst h
              exact ⟨r, rfl, by simpa using h1, by simpa using h2, hj⟩
  · intro tok b env h
    cases env with
    | transportErr m => simp [query_detector]
    | ok r =>
        simp only [query_detector] at h ⊢
        split_ifs at h ⊢ with h1 h2
        · simp
        · simp
        · cases hj : r.jsonParse with
          | none => simp [hj]
          | some j => rw [hj] at h; simp at h

/-- Witness for C9 at concrete inputs. -/
theorem c9_query_detector_never_raises_witness :
    (∃ o, (query_detector none [0] (HttpOutcome.transportErr "down")).result =
      PyResult.ret o) ∧
    (∃ r, HttpOutcome.ok (⟨200, "application/json", "[]",
        some (PyJson.list [])⟩ : Response) = HttpOutcome.ok r ∧
      statusError r.status = false ∧
      strContains r.contentType "application/json" = true ∧
      r.jsonParse = some (PyJson.list [])) ∧
    (query_detector none [0] (HttpOutcome.transportErr "down")).msgs ≠ [] :=
  ⟨c9_query_detector_never_raises.1 none [0] (HttpOutcome.transportErr "down"),
    c9_query_detector_never_raises.2.1 none [0]
      (HttpOutcome.ok ⟨200, "application/json", "[]", some (PyJson.list [])⟩)
      (PyJson.list []) rfl,
    c9_query_detector_never_raises.2.2 none [0]
      (HttpOutcome.transportErr "down") rfl⟩

/-! ### C2 -/

/-- C2 counterexample: with the token absent (`HF_TOKEN = None`), the
AI-image-detector feature still issues its HTTP POST (with header
`Bearer None`), so `classify` does not fail before the network call on all
three features as the claim states. -/
theorem c2_counterexample_detector_posts_without_token :
    (ai_image_detector none (some ⟨[0, 1], none⟩)
        (HttpOutcome.ok ⟨200, "application/json", "[]",
          some (PyJson.list [])⟩)).reqs =
      [⟨API_URL_DETECTOR, "Bearer None", [0, 1]⟩] := by
  rw [ai_image_detector_reqs]
  rfl

/-- C2 amended: only the age-classification feature checks the token
locally: with an absent or empty token it shows a configuration error and
returns before any POST; the two detector features issue their POST
regardless of the token. -/
theorem c2_amended_token_check_only_in_age :
    (∀ (jsave : PILImage → Bytes) (tok : Token) (raw : Bytes)
        (img : PILImage) (env : HttpOutcome),
      tokenTruthy tok = false →
      (age_classification jsave tok (some ⟨raw, some img⟩) env).reqs = [] ∧
      Msg.error "Hugging Face API token not found! Please set HUGGINGFACE_API_KEY in your .env file." ∈
        (age_classification jsave tok (some ⟨raw, some img⟩) env).msgs ∧
      (age_classification jsave tok (some ⟨raw, some img⟩) env).exn = none) ∧
    (∀ (tok : Token) (u : Upload) (env : HttpOutcome),
      (ai_image_detector tok (some u) env).reqs =
        [⟨API_URL_DETECTOR, authHeader tok, u.raw⟩]) ∧
    (∀ (tok : Token) (u : Upload) (env : HttpOutcome),
      (is_artificial_detector tok (some u) env).reqs =
        [⟨API_URL_DETECTOR, authHeader tok, u.raw⟩]) := by
  refine ⟨?_, ai_image_detector_reqs, is_artificial_detector_reqs⟩
  intro jsave tok raw img env h
  rw [age_classification_no_token jsave tok raw img env h]
  refine ⟨rfl, ?_, rfl⟩
  simp

/-- Witness for C2 (amended) with an absent token. -/
theorem c2_amended_token_check_only_in_age_witness :
    ((age_classification (fun _ => [1]) none (some ⟨[0], some ⟨"L", 1, 1, [0]⟩⟩)
        (HttpOutcome.transportErr "down")).reqs = [] ∧
      Msg.error "Hugging Face API token not found! Please set HUGGINGFACE_API_KEY in your .env file." ∈
        (age_classification (fun _ => [1]) none
          (some ⟨[0], some ⟨"L", 1, 1, [0]⟩⟩)
          (HttpOutcome.transportErr "down")).msgs ∧
      (age_classification (fun _ => [1]) none
          (some ⟨[0], some ⟨"L", 1, 1, [0]⟩⟩)
          (HttpOutcome.transportErr "down")).exn = none) ∧
    (ai_image_detector (some "k") (some ⟨[2], none⟩)
        (HttpOutcome.transportErr "down")).reqs =
      [⟨API_URL_DETECTOR, authHeader (some "k"), [2]⟩] :=
  ⟨c2_amended_token_check_only_in_age.1 (fun _ => [1]) none [0]
      ⟨"L", 1, 1, [0]⟩ (HttpOutcome.transportErr "down") rfl,
    c2_amended_token_check_only_in_age.2.1 (some "k") ⟨[2], none⟩
      (HttpOutcome.transportErr "down")⟩

/-! ### C4 -/

/-- C4 counterexample: a response to the age endpoint with declared content
type `text/html` whose body happens to parse as JSON is returned as a
success by `query_age` — the age endpoint performs no content-type check,
so the claim's "for both remote endpoints" fails. -/
theorem c4_counterexample_age_ignores_content_type :
    query_age (fun _ => [1]) (some "tok") ⟨"L", 1, 1, [0]⟩
        (HttpOutcome.ok ⟨200, "text/html", "ok",
          some (PyJson.list [⟨"human", 1/2⟩])⟩) =
      ⟨[⟨API_URL_AGE, "Bearer tok", [1]⟩], [],
        PyResult.ret (some (PyJson.list [⟨"human", 1/2⟩]))⟩ := by
  rfl

/-- C4 amended: only the detector endpoint checks the declared content
type — after the HTTP status check and before JSON parsing, a non-JSON
content type yields the content-type error with the raw body preserved
verbatim; the age endpoint attempts JSON parsing whatever the declared
content type is. -/
theorem c4_amended_content_type_check_detector_only :
    (∀ (tok : Token) (b : Bytes) (r : Response),
      statusError r.status = false →
      strContains r.contentType "application/json" = false →
      query_detector tok b (HttpOutcome.ok r) =
        ⟨[⟨API_URL_DETECTOR, authHeader tok, b⟩],
          [Msg.error "API did not return JSON. Raw response:",
            Msg.text r.text],
          PyResult.ret none⟩) ∧
    (∀ (tok : Token) (b : Bytes) (r : Response),
      statusError r.status = true →
      query_detector tok b (HttpOutcome.ok r) =
        ⟨[⟨API_URL_DETECTOR, authHeader tok, b⟩],
          [Msg.error ("HTTP error occurred: " ++ toString r.status)],
          PyResult.ret none⟩) ∧
    (∀ (jsave : PILImage → Bytes) (tok : Token) (img : PILImage)
        (r : Response) (j : PyJson),
      statusError r.status = false → r.jsonParse = some j →
      (query_age jsave tok img (HttpOutcome.ok r)).result =
        PyResult.ret (some j)) := by
  refine ⟨?_, ?_, ?_⟩
  · intro tok b r h1 h2
    simp [query_detector, h1, h2]
  · intro tok b r h1
    simp [query_detector, h1]
  · intro jsave tok img r j h1 hj
    simp [query_age, h1, hj]

/-- Witness for C4 (amended): the detector rejects a `text/html` response
whose body would even parse, keeping the body verbatim; the age endpoint
accepts it. -/
theorem c4_amended_content_type_check_detector_only_witness :
    query_detector (some "tok") [3]
        (HttpOutcome.ok ⟨200, "text/html", "<html>",
          some (PyJson.list [])⟩) =
      ⟨[⟨API_URL_DETECTOR, authHeader (some "tok"), [3]⟩],
        [Msg.error "API did not return JSON. Raw response:",
          Msg.text "<html>"],
        PyResult.ret none⟩ ∧
    (query_age (fun _ => [1]) (some "tok") ⟨"L", 1, 1, [0]⟩
        (HttpOutcome.ok ⟨200, "text/html", "<html>",
          some (PyJson.list [])⟩)).result =
      PyResult.ret (some (PyJson.list [])) :=
  ⟨c4_amended_content_type_check_detector_only.1 (some "tok") [3]
      ⟨200, "text/html", "<html>", some (PyJson.list [])⟩ rfl rfl,
    c4_amended_content_type_check_detector_only.2.2 (fun _ => [1])
      (some "tok") ⟨"L", 1, 1, [0]⟩
      ⟨200, "text/html", "<html>", some (PyJson.list [])⟩
      (PyJson.list []) rfl rfl⟩

/-! ### C6 -/

/-- C6 counterexample: an upload that `Image.open` cannot decode makes the
age feature terminate with an uncaught `UnidentifiedImageError` — nothing
is caught at the feature boundary and no user-visible message is shown
(only the page title was emitted), contradicting the claim. -/
theorem c6_counterexample_decode_error_uncaught :
    age_classification (fun _ => [1]) (some "tok") (some ⟨[9, 9], none⟩)
        (HttpOutcome.ok ⟨200, "application/json", "[]",
          some (PyJson.list [])⟩) =
      ⟨[], [Msg.title "Age Classification"], some PyExn.unidentifiedImage⟩ :=
  rfl

/-- C6 amended: an input that cannot be decoded as an image raises before
any encoding or network request (so no partial bytes are ever produced or
sent), but the exception propagates uncaught out of the feature function
instead of being converted to a user-visible message. -/
theorem c6_amended_decode_failure_propagates :
    ∀ (jsave : PILImage → Bytes) (tok : Token) (raw : Bytes)
      (env : HttpOutcome),
      age_classification jsave tok (some ⟨raw, none⟩) env =
        ⟨[], [Msg.title "Age Classification"], some PyExn.unidentifiedImage⟩ :=
  fun _ _ _ _ => rfl

/-! ### C7 -/

/-- C7: an empty entry list in a successful response is a valid return of
the query functions, not an error; every consumer handles it with a
non-actionable message and returns normally (no exception), and
`topPrediction` of the empty sequence is the defined empty case `none`. -/
theorem c7_empty_result_is_valid :
    ∀ (tok : Token) (b : Bytes) (u : Upload) (jsave : PILImage → Bytes)
      (t : String) (raw : Bytes) (img : PILImage) (r : Response),
      statusError r.status = false →
      strContains r.contentType "application/json" = true →
      r.jsonParse = some (PyJson.list []) →
      t ≠ "" →
      (query_detector tok b (HttpOutcome.ok r)).result =
          PyResult.ret (some (PyJson.list [])) ∧
      (query_detector tok b (HttpOutcome.ok r)).msgs = [] ∧
      (ai_image_detector tok (some u) (HttpOutcome.ok r)).exn = none ∧
      Msg.write "Failed to get a valid response from the API." ∈
        (ai_image_detector tok (some u) (HttpOutcome.ok r)).msgs ∧
      (is_artificial_detector tok (some u) (HttpOutcome.ok r)).exn = none ∧
      Msg.write "Failed to get a valid response from the API." ∈
        (is_artificial_detector tok (some u) (HttpOutcome.ok r)).msgs ∧
      (age_classification jsave (some t) (some ⟨raw, some img⟩)
          (HttpOutcome.ok r)).exn = none ∧
      Msg.write "An error occurred while processing the image. Please try again." ∈
        (age_classification jsave (some t) (some ⟨raw, some img⟩)
          (HttpOutcome.ok r)).msgs ∧
      topPrediction ([] : List Entry) = none := by
  intro tok b u jsave t raw img r h1 h2 h3 ht
  have hqd : ∀ bs : Bytes,
      query_detector tok bs (HttpOutcome.ok r) =
        ⟨[⟨API_URL_DETECTOR, authHeader tok, bs⟩], [],
          PyResult.ret (some (PyJson.list []))⟩ := by
    intro bs
    simp [query_detector, h1, h2, h3]
  have htt : tokenTruthy (some t) = true := by
    simp [tokenTruthy, ht]
  have hqa : query_age jsave (some t) img (HttpOutcome.ok r) =
      ⟨[⟨API_URL_AGE, authHeader (some t), (encode jsave img).getvalue⟩], [],
        PyResult.ret (some (PyJson.list []))⟩ := by
    simp [query_age, h1, h3]
  refine ⟨?_, ?_, ?_, ?_, ?_, ?_, ?_, ?_, rfl⟩
  · rw [hqd b]
  · rw [hqd b]
  · simp [ai_image_detector, hqd u.raw]
  · simp [ai_image_detector, hqd u.raw]
  · simp [is_artificial_detector, hqd u.raw]
  · simp [is_artificial_detector, hqd u.raw]
  · simp [age_classification, htt, hqa]
  · simp [age_classification, htt, hqa]

/-- Witness for C7 at a concrete empty-list response. -/
theorem c7_empty_result_is_valid_witness :
    (query_detector none [0]
        (HttpOutcome.ok ⟨200, "application/json", "[]",
          some (PyJson.list [])⟩)).result =
      PyResult.ret (some (PyJson.list [])) ∧
    (query_detector none [0]
        (HttpOutcome.ok ⟨200, "application/json", "[]",
          some (PyJson.list [])⟩)).msgs = [] ∧
    (ai_image_detector none (some ⟨[0], none⟩)
        (HttpOutcome.ok ⟨200, "application/json", "[]",
          some (PyJson.list [])⟩)).exn = none ∧
    Msg.write "Failed to get a valid response from the API." ∈
      (ai_image_detector none (some ⟨[0], none⟩)
        (HttpOutcome.ok ⟨200, "application/json", "[]",
          some (PyJson.list [])⟩)).msgs ∧
    (is_artificial_detector none (some ⟨[0], none⟩)
        (HttpOutcome.ok ⟨200, "application/json", "[]",
          some (PyJson.list [])⟩)).exn = none ∧
    Msg.write "Failed to get a valid response from the API." ∈
      (is_artificial_detector none (some ⟨[0], none⟩)
        (HttpOutcome.ok ⟨200, "application/json", "[]",
          some (PyJson.list [])⟩)).msgs ∧
    (age_classification (fun _ => [1]) (some "k")
        (some ⟨[0], some ⟨"L", 1, 1, [0]⟩⟩)
        (HttpOutcome.ok ⟨200, "application/json", "[]",
          some (PyJson.list [])⟩)).exn = none ∧
    Msg.write "An error occurred while processing the image. Please try again." ∈
      (age_classification (fun _ => [1]) (some "k")
        (some ⟨[0], some ⟨"L", 1, 1, [0]⟩⟩)
        (HttpOutcome.ok ⟨200, "application/json", "[]",
          some (PyJson.list [])⟩)).msgs ∧
    topPrediction ([] : List Entry) = none :=
  c7_empty_result_is_valid none [0] ⟨[0], none⟩ (fun _ => [1]) "k" [0]
    ⟨"L", 1, 1, [0]⟩ ⟨200, "application/json", "[]", some (PyJson.list [])⟩
    rfl rfl rfl (by decide)

/-! ### C8 -/

/-- C8: the two detector features POST the raw uploaded bytes unchanged,
the age feature POSTs the re-encoded bytes, and every request carries the
header `Authorization: Bearer <token>`. -/
theorem c8_post_bodies_and_auth_header :
    ∀ (t : String) (u : Upload) (env : HttpOutcome)
      (jsave : PILImage → Bytes) (raw : Bytes) (img : PILImage),
      (ai_image_detector (some t) (some u) env).reqs =
        [⟨API_URL_DETECTOR, "Bearer " ++ t, u.raw⟩] ∧
      (is_artificial_detector (some t) (some u) env).reqs =
        [⟨API_URL_DETECTOR, "Bearer " ++ t, u.raw⟩] ∧
      (t ≠ "" →
        (age_classification jsave (some t) (some ⟨raw, some img⟩) env).reqs =
          [⟨API_URL_AGE, "Bearer " ++ t, (encode jsave img).getvalue⟩]) := by
  intro t u env jsave raw img
  refine ⟨ai_image_detector_reqs _ _ _, is_artificial_detector_reqs _ _ _,
    fun ht => ?_⟩
  exact age_classification_reqs jsave (some t) raw img env
    (by simp [tokenTruthy, ht])

/-- Witness for C8 at concrete inputs. -/
theorem c8_post_bodies_and_auth_header_witness :
    (ai_image_detector (some "k") (some ⟨[5], none⟩)
        (HttpOutcome.transportErr "down")).reqs =
      [⟨API_URL_DETECTOR, "Bearer " ++ "k", [5]⟩] ∧
    (is_artificial_detector (some "k") (some ⟨[5], none⟩)
        (HttpOutcome.transportErr "down")).reqs =
      [⟨API_URL_DETECTOR, "Bearer " ++ "k", [5]⟩] ∧
    (age_classification (fun _ => [1]) (some "k")
        (some ⟨[0], some ⟨"L", 1, 1, [0]⟩⟩)
        (HttpOutcome.transportErr "down")).reqs =
      [⟨API_URL_AGE, "Bearer " ++ "k",
        (encode (fun _ => [1]) ⟨"L", 1, 1, [0]⟩).getvalue⟩] :=
  ⟨(c8_post_bodies_and_auth_header "k" ⟨[5], none⟩
      (HttpOutcome.transportErr "down") (fun _ => [1]) [0] ⟨"L", 1, 1, [0]⟩).1,
    (c8_post_bodies_and_auth_header "k" ⟨[5], none⟩
      (HttpOutcome.transportErr "down") (fun _ => [1]) [0] ⟨"L", 1, 1, [0]⟩).2.1,
    (c8_post_bodies_and_auth_header "k" ⟨[5], none⟩
      (HttpOutcome.transportErr "down") (fun _ => [1]) [0]
      ⟨"L", 1, 1, [0]⟩).2.2 (by decide)⟩

end ImageApp
